/-
Verification of the NeMo Guardrails content-safety layer.

Shallow embedding of the decision logic in
  litellm/proxy/guardrails/guardrail_hooks/nemo_guardrails/nemo_guardrails.py
  litellm/proxy/nemo_config/actions.py

Python dictionaries are modelled as structures whose optional fields stand
for the keys the code reads; a `none` field means the key is absent.
Exceptions raised by the Python code are modelled with `Except String`,
where the error string names the Python exception that would be raised.
Logging calls are modelled only where they have an observable effect:
the logging call at the top of `_is_message_blocked` subscripts the
response and can raise, so it is part of the embedded control flow;
purely textual log lines are dropped, but the statuses handed to
`_log_guardrail_result` are recorded in the hook traces.
-/
import Mathlib

/-! ## Python string primitives -/

/-- Python `str.lower()`, restricted to the ASCII range exactly as
`Char.toLower` is; every string the program compares is ASCII. -/
def pyLower (s : String) : String :=
  ⟨s.data.map Char.toLower⟩

/-- The ASCII whitespace characters stripped by Python `str.strip()`. -/
def pyIsSpace (c : Char) : Bool :=
  c == ' ' || c == '\t' || c == '\n' || c == '\r' || c == '\x0b' || c == '\x0c'

/-- Python `str.strip()`: drop leading and trailing whitespace. -/
def pyStrip (s : String) : String :=
  ⟨((s.data.dropWhile pyIsSpace).reverse.dropWhile pyIsSpace).reverse⟩

/-- Does the second list start with the first one? -/
def startsWithChars : List Char → List Char → Bool
  | [], _ => true
  | _ :: _, [] => false
  | p :: ps, c :: cs => p == c && startsWithChars ps cs

/-- Does the needle occur as a contiguous run inside the haystack? -/
def containsChars (needle : List Char) : List Char → Bool
  | [] => startsWithChars needle []
  | c :: cs => startsWithChars needle (c :: cs) || containsChars needle cs

/-- Python `needle in hay` on strings: substring containment. -/
def pyIn (needle hay : String) : Bool :=
  containsChars needle.data hay.data

/-- Python `v or d` for an optional string `v`: `None` and `""` are falsy. -/
def pyOrStr (v : Option String) (d : String) : String :=
  match v with
  | some s => if s == "" then d else s
  | none => d

/-- Python truthiness of an optional string: `None` and `""` are falsy. -/
def pyTruthyOpt : Option String → Bool
  | none => false
  | some s => !(s == "")

/-! ## The policy table of `_extract_policy_name` (lines 155-172) -/

def policy_mapping : List (String × String) := [
  ("I'm sorry, I can't respond to that request. I'm designed to follow specific guidelines and I cannot ignore or change my instructions.", "Jailbreak Prevention"),
  ("I'm sorry, I cannot assist with that request. It goes against my guidelines to provide information that could be harmful or illegal.", "Harmful Content Prevention"),
  ("I apologize, but I cannot provide that response as it violates content safety policies.", "Content Safety Policy"),
  ("I can't help with requests for personal or sensitive information such as social security numbers, passport numbers, bank or credit card details.", "PII Protection"),
  ("I can't assist with attempts to bypass safety or moderation rules. Please ask a different question.", "Safety Bypass Prevention"),
  ("I can't assist with explicit sexual content, pornography, or any sexual content involving minors or illegal situations.", "Sexual Content Prevention"),
  ("I'm sorry you're feeling this way. If you're in immediate danger, please contact your local emergency services.", "Self-Harm Prevention"),
  ("I cannot provide information about causing harm to others. Is there something else I can help you with?", "Violence Prevention"),
  ("I cannot assist with illegal activities. I'm here to help with legitimate and legal inquiries.", "Illegal Activity Prevention"),
  ("I'm designed to follow safety guidelines and cannot bypass my instructions. How else can I assist you?", "Instruction Bypass Prevention"),
  ("Please don't share sensitive personal information like passwords, credit cards, or social security numbers.", "Sensitive Information Protection"),
  ("I'm here to have respectful conversations. Let's keep things constructive.", "Toxicity Prevention"),
  ("I cannot create malicious code or security exploits. I can help with legitimate programming questions instead.", "Malicious Code Prevention"),
  ("I understand you may be frustrated. How can I help you in a constructive way?", "Respectful Interaction Policy"),
  ("I'm not able to provide medical diagnoses or treatment advice. Please consult a medical professional.", "Medical Advice Policy prevention"),
  ("I can't provide legal advice or instructions. Please consult a qualified legal professional.", "Legal Advice Policy Prevention")]

/-- The legacy phrases of `_extract_policy_name` (lines 181-186). -/
def legacy_phrases : List String := [
  "I'm sorry, I can't respond to that",
  "I cannot assist with that",
  "against my guidelines",
  "inappropriate"]

/-- The blocking-phrase list of `_is_message_blocked` (lines 224-248),
in source order; the scan stops at the first match. -/
def blocking_phrases : List String := [
  "I'm sorry, I can't respond to that request. I'm designed to follow specific guidelines and I cannot ignore or change my instructions.",
  "I'm sorry, I cannot assist with that request. It goes against my guidelines to provide information that could be harmful or illegal.",
  "I apologize, but I cannot provide that response as it violates content safety policies.",
  "I can't help with requests for personal or sensitive information such as social security numbers, passport numbers, bank or credit card details.",
  "I can't assist with attempts to bypass safety or moderation rules. Please ask a different question.",
  "I can't assist with explicit sexual content, pornography, or any sexual content involving minors or illegal situations.",
  "I'm sorry you're feeling this way. If you're in immediate danger, please contact your local emergency services. If you need someone to talk to, consider reaching out to a crisis hotline or a trusted person in your life.",
  "I'm sorry, I can't respond to that",
  "I cannot assist with that",
  "against my guidelines",
  "inappropriate",
  "I cannot provide information about causing harm to others. Is there something else I can help you with?",
  "I cannot assist with illegal activities. I'm here to help with legitimate and legal inquiries.",
  "I'm designed to follow safety guidelines and cannot bypass my instructions. How else can I assist you?",
  "Please don't share sensitive personal information like passwords, credit cards, or social security numbers. How else can I help?",
  "I'm here to have respectful conversations. Let's keep things constructive. What can I help you with?",
  "I cannot create malicious code or security exploits. I can help with legitimate programming questions instead.",
  "I understand you may be frustrated. How can I help you in a constructive way?",
  "I'm sorry, I can't respond to that.",
  "I'm not able to provide medical diagnoses or treatment advice. Please consult a medical professional.",
  "I can't provide legal advice or instructions. Please consult a qualified legal professional."]

/-! ## The API response model and the blocking decision classifier -/

/-- One entry of the response's `messages` list; `content` is `none`
when the `content` key is absent (subscripting it raises `KeyError`). -/
structure RespMessage where
  content : Option String
deriving DecidableEq

/-- The `metadata` map of the response, holding the two keys
`_extract_policy_name` reads. -/
structure RespMetadata where
  violated_policy : Option String
  policy_name : Option String
deriving DecidableEq

/-- The API response dictionary, holding the keys the classifier reads. -/
structure ApiResponse where
  messages : Option (List RespMessage)
  metadata : Option RespMetadata
deriving DecidableEq

/-- Python truthiness of the response dictionary: an empty dictionary is
falsy.  The model tracks exactly the keys the code reads, so the dictionary
is empty iff both are absent. -/
def respFalsy (r : ApiResponse) : Bool :=
  r.messages.isNone && r.metadata.isNone

/-- The policy-table scan at the tail of `_extract_policy_name`
(lines 174-192): first matching mapping entry, then the legacy phrases
with the generic policy, then `"Unknown Policy"`. -/
def policy_from_table (response_text : String) : String :=
  match policy_mapping.find? (fun pr => pyIn (pyLower pr.1) (pyLower response_text)) with
  | some pr => pr.2
  | none =>
    match legacy_phrases.find? (fun p => pyIn (pyLower p) (pyLower response_text)) with
    | some _ => "Content Policy Violation"
    | none => "Unknown Policy"

/-- `_extract_policy_name` (lines 135-192): response metadata first
(`violated_policy`, then `policy_name`), then the policy table. -/
def extract_policy_name (api_response : ApiResponse) (response_text : String) : String :=
  match api_response.metadata with
  | some md =>
    match md.violated_policy with
    | some v => v
    | none =>
      match md.policy_name with
      | some v => v
      | none => policy_from_table response_text
  | none => policy_from_table response_text

/-- `_is_message_blocked` (lines 194-257).  The first statement of the
body is the logging call `warning(api_response["messages"][0]["content"])`
(line 202), which subscripts the response before anything else: it raises
`TypeError` on `None`, `KeyError` when `messages` or `content` is absent,
and `IndexError` on an empty `messages` list.  Consequently the
`if not api_response` branch of line 203 can never fire: any falsy
response already raised on line 202.  The branch is kept in the model
after the subscripting, exactly as in the source. -/
def is_message_blocked (api_response : Option ApiResponse) :
    Except String (Bool × Option String × Option String) :=
  match api_response with
  | none => Except.error "TypeError: NoneType object is not subscriptable"
  | some resp =>
    match resp.messages with
    | none => Except.error "KeyError: messages"
    | some [] => Except.error "IndexError: list index out of range"
    | some (m :: _) =>
      match m.content with
      | none => Except.error "KeyError: content"
      | some response_text =>
        if respFalsy resp then
          Except.ok (true, some "Empty response from guardrails API", none)
        else if response_text == "" || pyStrip response_text == "" then
          Except.ok (true, some "Empty response from guardrails", none)
        else
          match blocking_phrases.find? (fun phrase => pyIn (pyLower phrase) (pyLower response_text)) with
          | some phrase =>
            Except.ok (true, some ("Blocking phrase detected: " ++ phrase),
              some (extract_policy_name resp response_text))
          | none => Except.ok (false, none, none)

example : is_message_blocked none = Except.error "TypeError: NoneType object is not subscriptable" := rfl

example : is_message_blocked (some { messages := some [{ content := some "inappropriate" }], metadata := none }) =
    Except.ok (true, some "Blocking phrase detected: inappropriate", some "Content Policy Violation") := rfl

example : is_message_blocked (some { messages := some [{ content := some "hello there" }], metadata := none }) =
    Except.ok (false, none, none) := rfl

/-! ## The configuration resolver `_get_config_id` (lines 63-100) -/

/-- One entry of the fetched configuration list; `id` is the value of
`.get("id")`, so `none` models an absent `id` key. -/
structure ConfigEntry where
  id : Option String
deriving DecidableEq

/-- The two instance attributes `_get_config_id` reads and writes:
`_config_id` (the explicit configuration id, possibly `None`) and
`_configs_cache` (`none` models the unpopulated `None` cache). -/
structure NemoState where
  config_id : Option String
  configs_cache : Option (List ConfigEntry)
deriving DecidableEq

/-- What one `_get_config_id` call produced: its result (id or raised
error), the instance state after the call, and whether the network fetch
of `/v1/rails/configs` was issued during the call. -/
structure ConfigResolution where
  result : Except String String
  state : NemoState
  fetched : Bool

/-- Lines 91-100: validate the cached list and select the first entry's
id.  Raises when the list is empty, or when the first entry's id is
absent or falsy. -/
def select_config (st : NemoState) (cfgs : List ConfigEntry) (fetched : Bool) : ConfigResolution :=
  match cfgs with
  | [] => ⟨Except.error "No NeMo Guardrails configurations available", st, fetched⟩
  | first :: _ =>
    match first.id with
    | none => ⟨Except.error "Config ID not found in response", st, fetched⟩
    | some cid =>
      if cid == "" then ⟨Except.error "Config ID not found in response", st, fetched⟩
      else ⟨Except.ok cid, st, fetched⟩

/-- `_get_config_id` (lines 63-100).  `fetchResult` stands for the
outcome of the `requests.get` call, consulted only when the cache is
unpopulated; a successful fetch is written to the cache before the
emptiness check of line 91 runs. -/
def get_config_id (st : NemoState) (fetchResult : Except String (List ConfigEntry)) :
    ConfigResolution :=
  if pyTruthyOpt st.config_id then ⟨Except.ok (st.config_id.getD ""), st, false⟩
  else
    match st.configs_cache with
    | none =>
      match fetchResult with
      | Except.error e => ⟨Except.error e, st, true⟩
      | Except.ok cfgs => select_config { st with configs_cache := some cfgs } cfgs true
    | some cfgs => select_config st cfgs false

example : (get_config_id ⟨none, none⟩ (Except.ok [])).state.configs_cache = some [] := rfl
example : (get_config_id ⟨none, none⟩ (Except.error "timeout")).state.configs_cache = none := rfl

/-! ## The pre-call hook `async_pre_call_hook` (lines 259-388) -/

/-- One request message: the values of `.get("role")` and
`.get("content")`, `none` when the key is absent. -/
structure ReqMessage where
  role : Option String
  content : Option String
deriving DecidableEq

/-- Lines 303-307: walk the messages in reverse, stop at the first one
whose role is `"user"`, and take `msg.get("content", "")`.  `none` means
no user-role message was found at all. -/
def lastUserMessage (messages : List ReqMessage) : Option String :=
  (messages.reverse.find? (fun m => m.role == some "user")).map (fun m => m.content.getD "")

/-- How the pre-call hook hands control back: `allow` models returning
`None`, `blocked` models raising `GuardrailRaisedException` with the
user-facing message (the only exception the final handler re-raises). -/
inductive PreCallOutcome where
  | allow
  | blocked (message : String)
deriving DecidableEq

/-- Observable effects of one pre-call invocation: the outcome, the
statuses handed to `_log_guardrail_result` in order, whether
`add_guardrail_to_applied_guardrails_header` ran, and whether the
classification API call was issued. -/
structure PreCallTrace where
  outcome : PreCallOutcome
  loggedStatuses : List String
  headerAdded : Bool
  apiInvoked : Bool
deriving DecidableEq

/-- `async_pre_call_hook` (lines 259-388).  `shouldRun` is
`should_run_guardrail(...) is True`, `proceedMeta` is the metadata bypass
collaborator's verdict, and `apiResult` stands for what
`_check_message_with_api` did: `Except.error` for any exception raised
while resolving the config or calling the endpoint, `Except.ok` for the
parsed JSON body (`none` models a JSON `null`).  The final `except`
re-raises only `GuardrailRaisedException`; every other exception is
logged with status `"error"` and converted to `None` (allow). -/
def async_pre_call_hook (shouldRun proceedMeta : Bool) (messages : List ReqMessage)
    (apiResult : Except String (Option ApiResponse)) : PreCallTrace :=
  if shouldRun = false then ⟨PreCallOutcome.allow, [], false, false⟩
  else if proceedMeta = false then ⟨PreCallOutcome.allow, [], false, false⟩
  else if messages.isEmpty then ⟨PreCallOutcome.allow, [], false, false⟩
  else
    match lastUserMessage messages with
    | none => ⟨PreCallOutcome.allow, [], false, false⟩
    | some user_message =>
      if user_message == "" then ⟨PreCallOutcome.allow, [], false, false⟩
      else
        match apiResult with
        | Except.error _ => ⟨PreCallOutcome.allow, ["error"], false, true⟩
        | Except.ok api_response =>
          match is_message_blocked api_response with
          | Except.error _ => ⟨PreCallOutcome.allow, ["error"], false, true⟩
          | Except.ok (true, _, policy_name) =>
            ⟨PreCallOutcome.blocked
              ("Your message was blocked by content safety policies. Policy violated: " ++
                pyOrStr policy_name "Content Safety"),
              ["blocked"], false, true⟩
          | Except.ok (false, _, _) => ⟨PreCallOutcome.allow, ["passed"], true, true⟩

/-! ## The post-call hook `async_post_call_success_hook` (lines 390-506) -/

/-- One response choice, reduced to the `message.content` attribute the
hook reads and rewrites; `none` models a `None` content. -/
structure RespChoice where
  content : Option String
deriving DecidableEq

/-- The model response object: its list of choices. -/
structure ModelResponse where
  choices : List RespChoice
deriving DecidableEq

/-- Observable effects of one post-call invocation.  The hook's final
`except` catches every exception and returns the original response, so
the hook always returns a response and never raises. -/
structure PostCallTrace where
  response : ModelResponse
  loggedStatuses : List String
  headerAdded : Bool
  apiInvoked : Bool
deriving DecidableEq

/-- The fixed refusal template of line 470, with the attributed policy
name, or `"Content Safety"` when the name is falsy. -/
def blocked_rewrite_text (policy_name : Option String) : String :=
  "I apologize, but I cannot provide that response as it violates content safety policies. (Policy: " ++
    pyOrStr policy_name "Content Safety" ++ ")"

/-- `async_post_call_success_hook` (lines 390-506).  On a blocked
decision the hook rewrites `response.choices[0].message.content` in
place to the refusal template and still returns the mutated response;
on a passed decision it returns the response unchanged; on any
exception it logs status `"error"` and returns the original response. -/
def async_post_call_success_hook (shouldRun proceedMeta : Bool) (response : ModelResponse)
    (apiResult : Except String (Option ApiResponse)) : PostCallTrace :=
  if shouldRun = false then ⟨response, [], false, false⟩
  else if proceedMeta = false then ⟨response, [], false, false⟩
  else
    match response.choices with
    | [] => ⟨response, [], false, false⟩
    | c :: rest =>
      match c.content with
      | none => ⟨response, [], false, false⟩
      | some response_content =>
        if response_content == "" then ⟨response, [], false, false⟩
        else
          match apiResult with
          | Except.error _ => ⟨response, ["error"], false, true⟩
          | Except.ok api_response =>
            match is_message_blocked api_response with
            | Except.error _ => ⟨response, ["error"], false, true⟩
            | Except.ok (true, _, policy_name) =>
              ⟨⟨{ content := some (blocked_rewrite_text policy_name) } :: rest⟩,
                ["blocked"], true, true⟩
            | Except.ok (false, _, _) => ⟨response, ["passed"], true, true⟩

/-! ## The local heuristic detectors of `nemo_config/actions.py` -/

/-- The action context map, reduced to the keys the detectors read. -/
structure ActionContext where
  user_message : Option String
  bot_message : Option String
  last_bot_message : Option String
deriving DecidableEq

/-- Lines 254-259 (and 167-173): `context.get("bot_message", "")`,
falling back to `context.get("last_bot_message", "")` when falsy. -/
def effectiveBotMessage (ctx : ActionContext) : String :=
  if ctx.bot_message.getD "" == "" then ctx.last_bot_message.getD ""
  else ctx.bot_message.getD ""

/-- The keyword list of `is_harmful_content` (lines 176-184). -/
def harmful_keywords : List String := [
  "violence", "violent", "attack", "hurt", "harm", "kill", "murder",
  "suicide", "self-harm", "cutting",
  "illegal", "crime", "criminal",
  "hack", "exploit", "malware", "virus",
  "drug", "cocaine", "heroin", "meth",
  "weapon", "bomb", "explosive",
  "discriminate", "racist", "sexist"]

/-- The instructional templates built around a keyword (lines 192-198). -/
def instruction_patterns (keyword : String) : List String :=
  ["how to " ++ keyword,
   "ways to " ++ keyword,
   "steps to " ++ keyword,
   "to " ++ keyword ++ " someone",
   keyword ++ " by"]

/-- `is_harmful_content` (lines 159-204): a keyword must be present and
one of its instructional templates must also be present in the
lowercased bot message. -/
def is_harmful_content (context : Option ActionContext) : Bool :=
  match context with
  | none => false
  | some ctx =>
    if effectiveBotMessage ctx == "" then false
    else
      harmful_keywords.any fun keyword =>
        pyIn keyword (pyLower (effectiveBotMessage ctx)) &&
        (instruction_patterns keyword).any fun pattern =>
          pyIn pattern (pyLower (effectiveBotMessage ctx))

/-- The literal alternatives of the regex
`I can help you (hack|steal|break into)` (line 263). -/
def violation_literals_help : List String :=
  ["I can help you hack", "I can help you steal", "I can help you break into"]

/-- The literal alternatives of the regex
`Here's how to (hurt|harm|attack)` (line 264). -/
def violation_literals_heres : List String :=
  ["Here's how to hurt", "Here's how to harm", "Here's how to attack"]

/-- One position of the regex `Step \d+: (hack|exploit|steal)`
(line 266): the literal `"Step "`, one or more digits, then `": "` and
one of the alternatives.  `:` is not a digit, so the greedy `\d+` needs
no backtracking. -/
def stepMatchAt (s : List Char) : Bool :=
  startsWithChars "Step ".data s &&
  (!((s.drop 5).takeWhile Char.isDigit).isEmpty) &&
  (startsWithChars ": hack".data ((s.drop 5).dropWhile Char.isDigit) ||
   startsWithChars ": exploit".data ((s.drop 5).dropWhile Char.isDigit) ||
   startsWithChars ": steal".data ((s.drop 5).dropWhile Char.isDigit))

/-- `re.search` of the step pattern: try every position. -/
def stepSearch : List Char → Bool
  | [] => false
  | c :: cs => stepMatchAt (c :: cs) || stepSearch cs

/-- The body of the pattern loop of `violates_policy` (lines 262-274),
applied to the already-lowercased message.  The four regexes are
searched exactly as written in the source, including their uppercase
literal characters. -/
def violationSearch (message_lower : String) : Bool :=
  violation_literals_help.any (fun lit => pyIn lit message_lower) ||
  violation_literals_heres.any (fun lit => pyIn lit message_lower) ||
  pyIn "To bypass security" message_lower ||
  stepSearch message_lower.data

/-- `violates_policy` (lines 246-276): lowercase the bot message, then
search the four case-sensitive violation regexes in it. -/
def violates_policy (context : Option ActionContext) : Bool :=
  match context with
  | none => false
  | some ctx =>
    if effectiveBotMessage ctx == "" then false
    else violationSearch (pyLower (effectiveBotMessage ctx))

example : is_harmful_content (some { user_message := none, bot_message := some "how to kill", last_bot_message := none }) = true := rfl
example : violates_policy (some { user_message := none, bot_message := some "Here's how to hurt someone", last_bot_message := none }) = false := rfl

/-! ## Helper lemmas -/

/-- `Char.ofNat` of a valid scalar value round-trips through `toNat`. -/
theorem char_toNat_ofNat_of_valid (n : Nat) (h : n.isValidChar) :
    (Char.ofNat n).toNat = n := by
  rw [Char.ofNat, dif_pos h]
  rfl

/-- `Char.toLower` never produces an ASCII uppercase letter. -/
theorem toLower_toNat_not_upper (c : Char) :
    (Char.toLower c).toNat < 65 ∨ 90 < (Char.toLower c).toNat := by
  simp only [Char.toLower]
  split
  · next h =>
    rw [char_toNat_ofNat_of_valid _ (Or.inl (by omega))]
    omega
  · next h =>
    rcases Nat.lt_or_ge c.toNat 65 with h1 | h1
    · exact Or.inl h1
    · rcases Nat.lt_or_ge 90 c.toNat with h2 | h2
      · exact Or.inr h2
      · exact absurd ⟨h1, h2⟩ h

/-- `Char.toLower` never equals a given ASCII uppercase letter. -/
theorem toLower_ne_upper {u : Char} (h65 : 65 ≤ u.toNat) (h90 : u.toNat ≤ 90)
    (c : Char) : Char.toLower c ≠ u := by
  intro he
  rcases toLower_toNat_not_upper c with h | h <;> rw [he] at h <;> omega

/-- Every character of a matched needle occurs in the list it starts. -/
theorem startsWithChars_subset {n h : List Char}
    (hs : startsWithChars n h = true) : ∀ c ∈ n, c ∈ h := by
  induction n generalizing h with
  | nil => intro c hc; cases hc
  | cons a as ih =>
    cases h with
    | nil => simp [startsWithChars] at hs
    | cons b bs =>
      rw [startsWithChars, Bool.and_eq_true, beq_iff_eq] at hs
      intro c hc
      rcases List.mem_cons.mp hc with hc | hc
      · rw [hc, hs.1]; exact List.mem_cons_self b bs
      · exact List.mem_cons_of_mem b (ih hs.2 c hc)

/-- Every character of a contained needle occurs in the haystack. -/
theorem containsChars_subset {n h : List Char}
    (hc : containsChars n h = true) : ∀ c ∈ n, c ∈ h := by
  induction h with
  | nil =>
    cases n with
    | nil => intro c hcn; cases hcn
    | cons a as => simp [containsChars, startsWithChars] at hc
  | cons b bs ih =>
    rw [containsChars, Bool.or_eq_true] at hc
    rcases hc with hc | hc
    · exact startsWithChars_subset hc
    · intro c hcn
      exact List.mem_cons_of_mem b (ih hc c hcn)

/-- A needle holding an ASCII uppercase letter is never a substring of a
lowercased string. -/
theorem pyIn_lower_no_upper (lit s : String) {u : Char}
    (h65 : 65 ≤ u.toNat) (h90 : u.toNat ≤ 90) (hmem : u ∈ lit.data) :
    pyIn lit (pyLower s) = false := by
  rw [Bool.eq_false_iff]
  intro hpy
  have hsub : u ∈ (pyLower s).data := containsChars_subset hpy u hmem
  obtain ⟨c, _, hc⟩ := List.mem_map.mp hsub
  exact toLower_ne_upper h65 h90 c hc

/-- A successful step-pattern match at a position exhibits a capital S. -/
theorem stepMatchAt_has_S {s : List Char} (h : stepMatchAt s = true) : 'S' ∈ s := by
  rw [stepMatchAt, Bool.and_eq_true, Bool.and_eq_true] at h
  exact startsWithChars_subset h.1.1 'S' (by decide)

/-- The step-pattern scan fails on any list without a capital S. -/
theorem stepSearch_eq_false {s : List Char} (h : 'S' ∉ s) : stepSearch s = false := by
  induction s with
  | nil => rfl
  | cons c t ih =>
    rw [stepSearch, Bool.or_eq_false_iff]
    constructor
    · rw [Bool.eq_false_iff]
      intro hm
      exact h (stepMatchAt_has_S hm)
    · exact ih (fun hm => h (List.mem_cons_of_mem c hm))

/-- The step-pattern scan fails on every lowercased string. -/
theorem stepSearch_lower (s : String) : stepSearch (pyLower s).data = false := by
  apply stepSearch_eq_false
  intro hmem
  obtain ⟨c, _, hc⟩ := List.mem_map.mp hmem
  exact toLower_ne_upper (by decide) (by decide) c hc

/-- No violation regex of `violates_policy` can match a lowercased
string: each alternative demands an uppercase literal character. -/
theorem violationSearch_lower (s : String) : violationSearch (pyLower s) = false := by
  have h1 : pyIn "I can help you hack" (pyLower s) = false :=
    pyIn_lower_no_upper _ _ (u := 'I') (by decide) (by decide) (by decide)
  have h2 : pyIn "I can help you steal" (pyLower s) = false :=
    pyIn_lower_no_upper _ _ (u := 'I') (by decide) (by decide) (by decide)
  have h3 : pyIn "I can help you break into" (pyLower s) = false :=
    pyIn_lower_no_upper _ _ (u := 'I') (by decide) (by decide) (by decide)
  have h4 : pyIn "Here's how to hurt" (pyLower s) = false :=
    pyIn_lower_no_upper _ _ (u := 'H') (by decide) (by decide) (by decide)
  have h5 : pyIn "Here's how to harm" (pyLower s) = false :=
    pyIn_lower_no_upper _ _ (u := 'H') (by decide) (by decide) (by decide)
  have h6 : pyIn "Here's how to attack" (pyLower s) = false :=
    pyIn_lower_no_upper _ _ (u := 'H') (by decide) (by decide) (by decide)
  have h7 : pyIn "To bypass security" (pyLower s) = false :=
    pyIn_lower_no_upper _ _ (u := 'T') (by decide) (by decide) (by decide)
  simp [violationSearch, violation_literals_help, violation_literals_heres,
    h1, h2, h3, h4, h5, h6, h7, stepSearch_lower]

/-- A found user message rules out an empty request message list. -/
theorem lastUserMessage_ne_nil {messages : List ReqMessage} {u : String}
    (h : lastUserMessage messages = some u) : messages.isEmpty = false := by
  cases messages with
  | nil => simp [lastUserMessage] at h
  | cons a t => rfl

/-! ## Claim theorems -/

/-- C1 counterexample: the canonical Self-Harm phrase of the policy
table is absent from the blocking-phrase list (which only holds a longer
variant of it), so a response whose text exactly equals this table
phrase is NOT blocked: the classifier returns `blocked = false` with no
policy name. -/
theorem c1_counterexample :
    ("I'm sorry you're feeling this way. If you're in immediate danger, please contact your local emergency services.", "Self-Harm Prevention") ∈ policy_mapping ∧
    is_message_blocked (some { messages := some [{ content := some "I'm sorry you're feeling this way. If you're in immediate danger, please contact your local emergency services." }], metadata := none }) = Except.ok (false, none, none) := by
  constructor
  · decide
  · rfl

/-- C1 (amended): for every response without metadata whose text exactly
equals a canonical phrase of the policy table that also occurs verbatim
in the blocking-phrase list, `_is_message_blocked` returns
`blocked = true` with the table's mapped policy name. -/
theorem c1_table_phrase_blocked (phrase policy : String)
    (hmem : (phrase, policy) ∈ policy_mapping) (hbp : phrase ∈ blocking_phrases) :
    is_message_blocked (some { messages := some [{ content := some phrase }], metadata := none }) =
      Except.ok (true, some ("Blocking phrase detected: " ++ phrase), some policy) := by
  simp only [policy_mapping, List.mem_cons, List.not_mem_nil, or_false] at hmem
  rcases hmem with h|h|h|h|h|h|h|h|h|h|h|h|h|h|h|h <;>
    (rw [Prod.mk.injEq] at h; obtain ⟨rfl, rfl⟩ := h) <;>
    first
      | rfl
      | exact absurd hbp (by decide)

/-- C1 witness: the Jailbreak Prevention table phrase is attributed its
mapped policy name. -/
theorem c1_table_phrase_blocked_witness :
    is_message_blocked (some { messages := some [{ content := some "I'm sorry, I can't respond to that request. I'm designed to follow specific guidelines and I cannot ignore or change my instructions." }], metadata := none }) =
      Except.ok (true, some ("Blocking phrase detected: " ++ "I'm sorry, I can't respond to that request. I'm designed to follow specific guidelines and I cannot ignore or change my instructions."), some "Jailbreak Prevention") :=
  c1_table_phrase_blocked _ _ (by decide) (by decide)

/-- C2: when the guardrail runs on a request with a non-empty most
recent user message and the classification call raises (timeout, network
failure, non-2xx status, or config-resolution failure), the pre-call
hook returns allow — the block signal is never raised — and exactly one
guardrail result with status `"error"` is logged. -/
theorem c2_fail_open_on_transport_error (messages : List ReqMessage) (u e : String)
    (h1 : lastUserMessage messages = some u) (h2 : u ≠ "") :
    async_pre_call_hook true true messages (Except.error e) =
      { outcome := PreCallOutcome.allow, loggedStatuses := ["error"],
        headerAdded := false, apiInvoked := true } := by
  rw [async_pre_call_hook]
  simp [lastUserMessage_ne_nil h1, h1, h2]

/-- C2 witness: a timed-out classification call on a one-message request
passes through with an error log. -/
theorem c2_fail_open_witness :
    async_pre_call_hook true true [{ role := some "user", content := some "hello" }] (Except.error "requests.exceptions.Timeout") =
      { outcome := PreCallOutcome.allow, loggedStatuses := ["error"],
        headerAdded := false, apiInvoked := true } :=
  c2_fail_open_on_transport_error _ "hello" _ rfl (by decide)

/-- C3: contrary to the claim and to the source's own dead
`if not api_response` branch, an absent (`None`) or empty (`{}`) API
response makes `_is_message_blocked` raise at the logging call of line
202 (which subscripts `api_response["messages"][0]["content"]` before
the emptiness check), so the documented
`(True, "Empty response from guardrails API", None)` decision is never
returned. -/
theorem c3_empty_response_raises :
    is_message_blocked none = Except.error "TypeError: NoneType object is not subscriptable" ∧
    is_message_blocked (some { messages := none, metadata := none }) = Except.error "KeyError: messages" :=
  ⟨rfl, rfl⟩

/-- C4: on every non-empty response dictionary that lacks the
`messages[0].content` field — the `messages` key absent (as in the
legacy `choices` / `response` / `content` shapes), the `messages` list
empty, or the first message without a `content` key — the classifier
raises rather than returning a decision, so it never silently allows. -/
theorem c4_missing_content_raises (r : ApiResponse)
    (hne : respFalsy r = false)
    (h : r.messages = none ∨ r.messages = some [] ∨
      ∃ m ms, r.messages = some (m :: ms) ∧ m.content = none) :
    ∃ e, is_message_blocked (some r) = Except.error e := by
  obtain ⟨ms, md⟩ := r
  rcases h with h | h | ⟨m, rest, h, hcont⟩ <;> simp only at h <;> subst h
  · exact ⟨_, rfl⟩
  · exact ⟨_, rfl⟩
  · obtain ⟨mc⟩ := m
    simp only at hcont
    subst hcont
    exact ⟨_, rfl⟩

/-- C4 witness: a non-empty response with only a `metadata` key raises. -/
theorem c4_missing_content_raises_witness :
    ∃ e, is_message_blocked (some { messages := none, metadata := some { violated_policy := none, policy_name := none } }) = Except.error e :=
  c4_missing_content_raises _ (by decide) (Or.inl rfl)

/-- The selection step reports exactly the fetch flag it was handed. -/
theorem select_config_fetched (st : NemoState) (cfgs : List ConfigEntry) (f : Bool) :
    (select_config st cfgs f).fetched = f := by
  rw [select_config.eq_def]
  split
  · rfl
  · split
    · rfl
    · split <;> rfl

/-- C5 counterexample: with no explicit config id and an unpopulated
cache, a fetch that succeeds with an empty configuration list makes
`_get_config_id` raise — but it populates the cache with the empty
list, and the next call neither re-issues the network fetch nor
recovers, even when fresh configurations are available. -/
theorem c5_counterexample :
    (get_config_id ⟨none, none⟩ (Except.ok [])).result = Except.error "No NeMo Guardrails configurations available" ∧
    (get_config_id ⟨none, none⟩ (Except.ok [])).state.configs_cache = some [] ∧
    (get_config_id (get_config_id ⟨none, none⟩ (Except.ok [])).state (Except.ok [{ id := some "fresh" }])).fetched = false ∧
    (get_config_id (get_config_id ⟨none, none⟩ (Except.ok [])).state (Except.ok [{ id := some "fresh" }])).result = Except.error "No NeMo Guardrails configurations available" :=
  ⟨rfl, rfl, rfl, rfl⟩

/-- C5 (amended): when the network fetch itself fails, `_get_config_id`
raises, propagates the cause, and leaves the cache unpopulated, so the
next resolution call re-issues the network fetch; but when the fetch
succeeds with an empty list the failure is cached (see the
counterexample). -/
theorem c5_transport_failure_retries (st : NemoState) (e : String)
    (f2 : Except String (List ConfigEntry))
    (h1 : pyTruthyOpt st.config_id = false) (h2 : st.configs_cache = none) :
    (get_config_id st (Except.error e)).result = Except.error e ∧
    (get_config_id st (Except.error e)).state = st ∧
    (get_config_id (get_config_id st (Except.error e)).state f2).fetched = true := by
  refine ⟨?_, ?_, ?_⟩ <;>
    cases f2 <;>
    simp [get_config_id, h1, h2, select_config_fetched]

/-- C5 witness: a timeout on first resolution leaves the state intact
and the second call fetches again. -/
theorem c5_transport_failure_retries_witness :
    (get_config_id ⟨none, none⟩ (Except.error "timeout")).result = Except.error "timeout" ∧
    (get_config_id ⟨none, none⟩ (Except.error "timeout")).state = ⟨none, none⟩ ∧
    (get_config_id (get_config_id ⟨none, none⟩ (Except.error "timeout")).state (Except.ok [{ id := some "cfg" }])).fetched = true :=
  c5_transport_failure_retries ⟨none, none⟩ "timeout" (Except.ok [{ id := some "cfg" }]) rfl rfl

/-- C6: when the post-call guardrail runs, the response carries
non-empty content, and the classifier decides blocked, the hook logs
exactly one result with status `"blocked"`, rewrites
`choices[0].message.content` in place to the fixed refusal template
embedding the attributed policy name (`"Content Safety"` when
unattributed), and returns the mutated response; the hook is a total
function into `PostCallTrace`, so the post-call path never raises. -/
theorem c6_post_call_blocked_rewrites (c : RespChoice) (rest : List RespChoice)
    (rc : String) (reason policy_name : Option String) (api : Option ApiResponse)
    (h1 : c.content = some rc) (h2 : rc ≠ "")
    (h3 : is_message_blocked api = Except.ok (true, reason, policy_name)) :
    async_post_call_success_hook true true ⟨c :: rest⟩ (Except.ok api) =
      { response := ⟨{ content := some (blocked_rewrite_text policy_name) } :: rest⟩,
        loggedStatuses := ["blocked"], headerAdded := true, apiInvoked := true } := by
  rw [async_post_call_success_hook]
  simp [h1, h2, h3]

/-- C6 witness: a response caught by the legacy phrase `inappropriate`
is rewritten to the refusal template naming the generic policy. -/
theorem c6_post_call_blocked_rewrites_witness :
    async_post_call_success_hook true true ⟨[{ content := some "that is inappropriate content" }]⟩
      (Except.ok (some { messages := some [{ content := some "inappropriate" }], metadata := none })) =
      { response := ⟨[{ content := some (blocked_rewrite_text (some "Content Policy Violation")) }]⟩,
        loggedStatuses := ["blocked"], headerAdded := true, apiInvoked := true } :=
  c6_post_call_blocked_rewrites _ [] "that is inappropriate content"
    (some "Blocking phrase detected: inappropriate") (some "Content Policy Violation")
    _ rfl (by decide) rfl

/-- C7 counterexample: the empty text contains none of the blocking
phrases, yet the classifier returns `blocked = true` (reason
`"Empty response from guardrails"`) instead of the claimed
`blocked = false`. -/
theorem c7_counterexample :
    (blocking_phrases.all fun p => !pyIn (pyLower p) (pyLower "")) = true ∧
    is_message_blocked (some { messages := some [{ content := some "" }], metadata := none }) =
      Except.ok (true, some "Empty response from guardrails", none) :=
  ⟨rfl, rfl⟩

/-- C7 (amended): for every response whose extracted text is non-empty,
not whitespace-only, and contains none of the blocking phrases as a
case-insensitive substring, the classifier returns `blocked = false`
with no reason and no policy name. -/
theorem c7_no_phrase_allows (s : String) (md : Option RespMetadata)
    (h1 : s ≠ "") (h2 : pyStrip s ≠ "")
    (h3 : ∀ p ∈ blocking_phrases, pyIn (pyLower p) (pyLower s) = false) :
    is_message_blocked (some { messages := some [{ content := some s }], metadata := md }) =
      Except.ok (false, none, none) := by
  rw [is_message_blocked]
  have hfind : blocking_phrases.find? (fun phrase => pyIn (pyLower phrase) (pyLower s)) = none :=
    List.find?_eq_none.mpr (fun p hp => by rw [h3 p hp]; exact Bool.false_ne_true)
  simp [respFalsy, h1, h2, hfind]

/-- C7 witness: an ordinary helpful reply is allowed. -/
theorem c7_no_phrase_allows_witness :
    is_message_blocked (some { messages := some [{ content := some "The capital of France is Paris." }], metadata := none }) =
      Except.ok (false, none, none) :=
  c7_no_phrase_allows "The capital of France is Paris." none (by decide) (by decide) (by decide)

/-- C8: contrary to the claim, `violates_policy` returns `false` on
every context — including compliance-framed harmful responses such as
`"Here's how to hurt someone"` — because it lowercases the bot message
and then searches the four violation regexes case-sensitively, and each
regex alternative demands an uppercase literal character that a
lowercased string can never contain. -/
theorem c8_violates_policy_never_true (context : Option ActionContext) :
    violates_policy context = false := by
  rw [violates_policy.eq_def]
  match context with
  | none => rfl
  | some ctx =>
    dsimp only
    split
    · rfl
    · exact violationSearch_lower _

/-- C9: the harmful-content-in-response detector leaves a bare keyword
(`"violence"`) alone but fires on a keyword inside an instructional
template (`"how to kill"`). -/
theorem c9_harmful_content_examples :
    is_harmful_content (some { user_message := none, bot_message := some "violence", last_bot_message := none }) = false ∧
    is_harmful_content (some { user_message := none, bot_message := some "how to kill", last_bot_message := none }) = true :=
  ⟨rfl, rfl⟩

/-- C10: when the request's message list is empty, or its most recent
user-role message has empty or missing content (regardless of earlier
user messages), the pre-call hook returns allow without calling the
classification API, without logging any guardrail result, and without
touching the applied-guardrails header — for every gating
configuration. -/
theorem c10_blank_user_message_skips (shouldRun proceedMeta : Bool)
    (messages : List ReqMessage) (apiResult : Except String (Option ApiResponse))
    (h : messages = [] ∨ lastUserMessage messages = some "") :
    async_pre_call_hook shouldRun proceedMeta messages apiResult =
      { outcome := PreCallOutcome.allow, loggedStatuses := [],
        headerAdded := false, apiInvoked := false } := by
  rcases h with h | h
  · subst h
    cases shouldRun <;> cases proceedMeta <;> rfl
  · cases messages with
    | nil => simp [lastUserMessage] at h
    | cons a t =>
      cases shouldRun <;> cases proceedMeta <;>
        simp [async_pre_call_hook, h]

/-- C10 witness: an earlier non-empty user message does not resurrect a
request whose most recent user message is empty. -/
theorem c10_blank_user_message_skips_witness :
    async_pre_call_hook true true
      [{ role := some "user", content := some "tell me about Paris" },
       { role := some "user", content := some "" }]
      (Except.error "never called") =
      { outcome := PreCallOutcome.allow, loggedStatuses := [],
        headerAdded := false, apiInvoked := false } :=
  c10_blank_user_message_skips true true _ _ (Or.inr rfl)
